import Mathlib

/-!
Verification of the SignBridge backend (`backend/server.py`).

The core under verification is the rule-based `GestureClassifier`:
a hand pose is a list of landmarks, each with coordinates `x, y, z`;
`predict` evaluates ten named gesture rules in a fixed order and keeps a
running best `(name, confidence)` pair, replacing it only on a strict
improvement, finally capping the confidence at `0.95`.

Coordinates are modelled as rationals (`ℚ`): every geometric test in the
source is a comparison of field expressions in the coordinates, so the
behaviour on the rational subfield determines the algorithm's branching
structure exactly.  The only non-field operation in the source, the square
root inside `_check_more`, is applied to a non-negative quantity and
immediately compared with the non-negative constant `0.1`; since `sqrt` is
monotone, `sqrt s < 0.1 ↔ s < 0.1 ^ 2`, and the embedding compares the
squared distance with `0.1 ^ 2`.
-/

namespace SignBridge

/-- One hand landmark: the source represents it as a `[x, y, z]` triple
(`HandLandmark` model / inner lists of `SignPredictionRequest.landmarks`). -/
structure Landmark where
  x : ℚ
  y : ℚ
  z : ℚ
deriving DecidableEq, Repr

/-- `landmarks[i]` of the source.  `predict` guards `len(landmarks) >= 21`
before any access, so every access in the rules is in bounds and the
default value is never consulted on the guarded path. -/
def getLm (landmarks : List Landmark) (i : Nat) : Landmark :=
  landmarks.getD i ⟨0, 0, 0⟩

/-- Landmark indices of the five fingertips (`tip_ids` in the source). -/
def tip_ids : List Nat := [4, 8, 12, 16, 20]

/-- Landmark indices of the joints proximal to the tips (`pip_ids`). -/
def pip_ids : List Nat := [3, 6, 10, 14, 18]

/-- `GestureClassifier._get_finger_extended`: finger `0` (the thumb) is
extended iff `tip.x > pip.x`, every other finger iff `tip.y < pip.y`. -/
def get_finger_extended (landmarks : List Landmark) : List Bool :=
  (List.zip tip_ids pip_ids).enum.map (fun ip =>
    if ip.1 = 0 then
      decide ((getLm landmarks ip.2.1).x > (getLm landmarks ip.2.2).x)
    else
      decide ((getLm landmarks ip.2.1).y < (getLm landmarks ip.2.2).y))

/-- Python's `sum` over a list of booleans. -/
def bsum (l : List Bool) : Nat :=
  (l.map (fun b => cond b 1 0)).sum

/-- `_check_hello`: at least 4 of 5 fingers extended. -/
def check_hello (landmarks : List Landmark) : ℚ :=
  let extended := get_finger_extended landmarks
  if 4 ≤ bsum extended then 0.8 else 0.2

/-- `_check_thank_you`: wrist in the upper part of the frame. -/
def check_thank_you (landmarks : List Landmark) : ℚ :=
  let palm_y := (getLm landmarks 0).y
  if palm_y < 0.3 then 0.7 else 0.2

/-- `_check_yes`: thumb extended, all other fingers not. -/
def check_yes (landmarks : List Landmark) : ℚ :=
  let extended := get_finger_extended landmarks
  if extended.getD 0 false && !((extended.drop 1).any id) then 0.8 else 0.2

/-- `_check_no`: only the index finger extended, thumb not. -/
def check_no (landmarks : List Landmark) : ℚ :=
  let extended := get_finger_extended landmarks
  if !(extended.getD 0 false) && extended.getD 1 false
      && !((extended.drop 2).any id) then 0.7 else 0.2

/-- `_check_help`: at least 3 fingers extended and wrist `z < 0`. -/
def check_help (landmarks : List Landmark) : ℚ :=
  let extended := get_finger_extended landmarks
  let palm_z := (getLm landmarks 0).z
  if 3 ≤ bsum extended ∧ palm_z < 0 then 0.6 else 0.2

/-- `_check_stop`: at least 3 of the 4 non-thumb fingers extended. -/
def check_stop (landmarks : List Landmark) : ℚ :=
  let extended := get_finger_extended landmarks
  if 3 ≤ bsum (extended.drop 1) then 0.7 else 0.2

/-- `_check_please`: at least 3 fingers extended, wrist `y` strictly
between `0.3` and `0.7`. -/
def check_please (landmarks : List Landmark) : ℚ :=
  let extended := get_finger_extended landmarks
  let palm_y := (getLm landmarks 0).y
  if 3 ≤ bsum extended ∧ 0.3 < palm_y ∧ palm_y < 0.7 then 0.6 else 0.2

/-- `_check_water`: at most 2 fingers extended and wrist `y < 0.4`. -/
def check_water (landmarks : List Landmark) : ℚ :=
  let extended := get_finger_extended landmarks
  let palm_y := (getLm landmarks 0).y
  if bsum extended ≤ 2 ∧ palm_y < 0.4 then 0.6 else 0.2

/-- `_check_more`: every fingertip close to the fingertip centroid in the
`x, y` plane.  The source tests `sqrt (dx^2 + dy^2) < 0.1`; both sides are
non-negative, so this is equivalent to `dx^2 + dy^2 < 0.1 ^ 2`, which is
what the embedding compares to stay inside `ℚ`. -/
def check_more (landmarks : List Landmark) : ℚ :=
  let fingertips := [4, 8, 12, 16, 20].map (getLm landmarks)
  let center_x := (fingertips.map (fun tip => tip.x)).sum / 5
  let center_y := (fingertips.map (fun tip => tip.y)).sum / 5
  let distances := fingertips.map
    (fun tip => (tip.x - center_x) ^ 2 + (tip.y - center_y) ^ 2)
  if distances.all (fun d => decide (d < (0.1 : ℚ) ^ 2)) then 0.7 else 0.2

/-- `_check_finished`: at least 3 fingers extended. -/
def check_finished (landmarks : List Landmark) : ℚ :=
  let extended := get_finger_extended landmarks
  if 3 ≤ bsum extended then 0.5 else 0.2

/-- `GestureClassifier.__init__`: the rule bank `self.gestures`, in Python
dict insertion order (which `predict`'s iteration follows). -/
def gestures : List (String × (List Landmark → ℚ)) :=
  [("hello", check_hello),
   ("thank_you", check_thank_you),
   ("yes", check_yes),
   ("no", check_no),
   ("help", check_help),
   ("stop", check_stop),
   ("please", check_please),
   ("water", check_water),
   ("more", check_more),
   ("finished", check_finished)]

/-- One step of `predict`'s loop: replace the running best iff the new
confidence is strictly greater. -/
def selStep (best r : String × ℚ) : String × ℚ :=
  if best.2 < r.2 then r else best

/-- `GestureClassifier.predict`: guard malformed input, run every rule in
bank order keeping the strictly-better result, cap the confidence. -/
def predict (landmarks : List Landmark) : String × ℚ :=
  if landmarks.isEmpty || landmarks.length < 21 then ("unknown", 0.1)
  else
    let best := gestures.foldl
      (fun best g => selStep best (g.1, g.2 landmarks)) ("unknown", 0.1)
    (best.1, min best.2 0.95)

/-- The ten `(name, confidence)` rule results for a pose, in bank order. -/
def ruleResults (landmarks : List Landmark) : List (String × ℚ) :=
  gestures.map (fun g => (g.1, g.2 landmarks))

/-!  Spec-level descriptions of the geometric tests, written as plain
propositions about coordinates (the spec's finger-extension criteria and
rule conditions), used to characterize the embedded rules. -/

/-- Spec: the thumb is extended iff its tip `x` exceeds its joint `x`. -/
abbrev thumbExt (lm : List Landmark) : Prop := (getLm lm 3).x < (getLm lm 4).x

/-- Spec: the index finger is extended iff its tip `y` is below its joint `y`. -/
abbrev indexExt (lm : List Landmark) : Prop := (getLm lm 8).y < (getLm lm 6).y

/-- Spec: the middle finger is extended iff its tip `y` is below its joint `y`. -/
abbrev middleExt (lm : List Landmark) : Prop := (getLm lm 12).y < (getLm lm 10).y

/-- Spec: the ring finger is extended iff its tip `y` is below its joint `y`. -/
abbrev ringExt (lm : List Landmark) : Prop := (getLm lm 16).y < (getLm lm 14).y

/-- Spec: the pinky is extended iff its tip `y` is below its joint `y`. -/
abbrev pinkyExt (lm : List Landmark) : Prop := (getLm lm 20).y < (getLm lm 18).y

/-- Spec: how many of the five fingers are extended. -/
def extCountSpec (lm : List Landmark) : ℕ :=
  (if thumbExt lm then 1 else 0) + (if indexExt lm then 1 else 0) +
  (if middleExt lm then 1 else 0) + (if ringExt lm then 1 else 0) +
  (if pinkyExt lm then 1 else 0)

/-- Spec: how many of the four non-thumb fingers are extended. -/
def nonThumbCountSpec (lm : List Landmark) : ℕ :=
  (if indexExt lm then 1 else 0) + (if middleExt lm then 1 else 0) +
  (if ringExt lm then 1 else 0) + (if pinkyExt lm then 1 else 0)

/-- Wrist `y` coordinate (landmark 0). -/
abbrev wristY (lm : List Landmark) : ℚ := (getLm lm 0).y

/-- Wrist `z` coordinate (landmark 0). -/
abbrev wristZ (lm : List Landmark) : ℚ := (getLm lm 0).z

/-- The five fingertip landmarks, in finger order. -/
def fingertipsOf (lm : List Landmark) : List Landmark :=
  [getLm lm 4, getLm lm 8, getLm lm 12, getLm lm 16, getLm lm 20]

/-- Spec: the `x` coordinate of the shared fingertip centroid. -/
def centX (lm : List Landmark) : ℚ :=
  ((fingertipsOf lm).map (fun tip => tip.x)).sum / 5

/-- Spec: the `y` coordinate of the shared fingertip centroid. -/
def centY (lm : List Landmark) : ℚ :=
  ((fingertipsOf lm).map (fun tip => tip.y)).sum / 5

/-- Spec: every fingertip is within (squared) distance `0.1 ^ 2` of the
fingertip centroid, in the `x, y` plane. -/
def moreCond (lm : List Landmark) : Prop :=
  ∀ t ∈ fingertipsOf lm, (t.x - centX lm) ^ 2 + (t.y - centY lm) ^ 2 < (0.1 : ℚ) ^ 2

instance moreCondDec (lm : List Landmark) : Decidable (moreCond lm) :=
  List.decidableBAll _ _

/-!  The finger-extension vector, made explicit. -/

theorem get_finger_extended_eq (lm : List Landmark) :
    get_finger_extended lm =
      [decide (thumbExt lm), decide (indexExt lm), decide (middleExt lm),
       decide (ringExt lm), decide (pinkyExt lm)] := rfl

theorem bsum_ext (lm : List Landmark) :
    bsum (get_finger_extended lm) = extCountSpec lm := by
  rw [get_finger_extended_eq]
  by_cases h1 : thumbExt lm <;> by_cases h2 : indexExt lm <;>
    by_cases h3 : middleExt lm <;> by_cases h4 : ringExt lm <;>
    by_cases h5 : pinkyExt lm <;>
  simp [bsum, extCountSpec, h1, h2, h3, h4, h5]

theorem bsum_ext_drop (lm : List Landmark) :
    bsum ((get_finger_extended lm).drop 1) = nonThumbCountSpec lm := by
  rw [get_finger_extended_eq]
  by_cases h2 : indexExt lm <;> by_cases h3 : middleExt lm <;>
    by_cases h4 : ringExt lm <;> by_cases h5 : pinkyExt lm <;>
  simp [bsum, nonThumbCountSpec, h2, h3, h4, h5]

/-!  Characterization of each rule by its spec-level condition. -/

theorem check_hello_eq (lm : List Landmark) :
    check_hello lm = if 4 ≤ extCountSpec lm then 0.8 else 0.2 := by
  rw [check_hello, bsum_ext]

theorem check_thank_you_eq (lm : List Landmark) :
    check_thank_you lm = if wristY lm < 0.3 then 0.7 else 0.2 := rfl

theorem check_yes_eq (lm : List Landmark) :
    check_yes lm =
      if thumbExt lm ∧ ¬(indexExt lm ∨ middleExt lm ∨ ringExt lm ∨ pinkyExt lm)
      then 0.8 else 0.2 := by
  rw [check_yes, get_finger_extended_eq]
  by_cases h1 : thumbExt lm <;> by_cases h2 : indexExt lm <;>
    by_cases h3 : middleExt lm <;> by_cases h4 : ringExt lm <;>
    by_cases h5 : pinkyExt lm <;>
  simp [h1, h2, h3, h4, h5]

theorem check_no_eq (lm : List Landmark) :
    check_no lm =
      if ¬ thumbExt lm ∧ indexExt lm ∧ ¬(middleExt lm ∨ ringExt lm ∨ pinkyExt lm)
      then 0.7 else 0.2 := by
  rw [check_no, get_finger_extended_eq]
  by_cases h1 : thumbExt lm <;> by_cases h2 : indexExt lm <;>
    by_cases h3 : middleExt lm <;> by_cases h4 : ringExt lm <;>
    by_cases h5 : pinkyExt lm <;>
  simp [h1, h2, h3, h4, h5]

theorem check_help_eq (lm : List Landmark) :
    check_help lm = if 3 ≤ extCountSpec lm ∧ wristZ lm < 0 then 0.6 else 0.2 := by
  rw [check_help, bsum_ext]

theorem check_stop_eq (lm : List Landmark) :
    check_stop lm = if 3 ≤ nonThumbCountSpec lm then 0.7 else 0.2 := by
  rw [check_stop, bsum_ext_drop]

theorem check_please_eq (lm : List Landmark) :
    check_please lm =
      if 3 ≤ extCountSpec lm ∧ 0.3 < wristY lm ∧ wristY lm < 0.7
      then 0.6 else 0.2 := by
  rw [check_please, bsum_ext]

theorem check_water_eq (lm : List Landmark) :
    check_water lm = if extCountSpec lm ≤ 2 ∧ wristY lm < 0.4 then 0.6 else 0.2 := by
  rw [check_water, bsum_ext]

theorem check_more_eq (lm : List Landmark) :
    check_more lm = if moreCond lm then 0.7 else 0.2 := by
  unfold check_more moreCond
  simp only [fingertipsOf, centX, centY, List.map_cons, List.map_nil, List.all_cons,
    List.all_nil, List.mem_cons, List.not_mem_nil, or_false, List.sum_cons,
    List.sum_nil, Bool.and_true, Bool.and_eq_true, decide_eq_true_eq,
    forall_eq_or_imp, forall_eq]

theorem check_finished_eq (lm : List Landmark) :
    check_finished lm = if 3 ≤ extCountSpec lm then 0.5 else 0.2 := by
  rw [check_finished, bsum_ext]

/-- A two-valued conditional is bounded by any bound on both branches. -/
theorem ite_le {c : Prop} [Decidable c] {a b bound : ℚ}
    (ha : a ≤ bound) (hb : b ≤ bound) : (if c then a else b) ≤ bound := by
  split <;> assumption

/-- A two-valued conditional is bounded below by a bound on both branches. -/
theorem le_ite {c : Prop} [Decidable c] {a b bound : ℚ}
    (ha : bound ≤ a) (hb : bound ≤ b) : bound ≤ (if c then a else b) := by
  split <;> assumption

/-- The rule bank results, written out. -/
theorem ruleResults_eq (lm : List Landmark) :
    ruleResults lm =
      [("hello", check_hello lm), ("thank_you", check_thank_you lm),
       ("yes", check_yes lm), ("no", check_no lm), ("help", check_help lm),
       ("stop", check_stop lm), ("please", check_please lm),
       ("water", check_water lm), ("more", check_more lm),
       ("finished", check_finished lm)] := rfl

/-- Every rule's confidence lies in `[0.2, 0.8]`. -/
theorem rule_conf_bounds (lm : List Landmark) :
    ∀ r ∈ ruleResults lm, (0.2 : ℚ) ≤ r.2 ∧ r.2 ≤ 0.8 := by
  have hb : ∀ q : ℚ, (q = 0.8 ∨ q = 0.7 ∨ q = 0.6 ∨ q = 0.5 ∨ q = 0.2) →
      (0.2 : ℚ) ≤ q ∧ q ≤ 0.8 := by
    rintro q (h | h | h | h | h) <;> rw [h] <;> constructor <;> norm_num
  intro r hr
  rw [ruleResults_eq] at hr
  simp only [List.mem_cons, List.not_mem_nil, or_false] at hr
  refine hb r.2 ?_
  rcases hr with h | h | h | h | h | h | h | h | h | h <;> rw [h] <;>
    simp only [check_hello_eq, check_thank_you_eq, check_yes_eq, check_no_eq,
      check_help_eq, check_stop_eq, check_please_eq, check_water_eq,
      check_more_eq, check_finished_eq] <;> split <;> simp

/-!  The selection fold: generic lemmas about `selStep`. -/

theorem selStep_foldl_ge (l : List (String × ℚ)) (init : String × ℚ) :
    init.2 ≤ (l.foldl selStep init).2 := by
  induction l generalizing init with
  | nil => exact le_refl _
  | cons a l ih =>
    rw [List.foldl_cons]
    refine le_trans ?_ (ih (selStep init a))
    rw [selStep]
    split
    · exact le_of_lt (by assumption)
    · exact le_refl _

theorem selStep_foldl_mem_le (l : List (String × ℚ)) (init : String × ℚ) :
    ∀ r ∈ l, r.2 ≤ (l.foldl selStep init).2 := by
  induction l generalizing init with
  | nil => intro r hr; exact absurd hr (List.not_mem_nil r)
  | cons a l ih =>
    intro r hr
    rw [List.foldl_cons]
    rcases List.mem_cons.mp hr with h | h
    · rw [h]
      refine le_trans ?_ (selStep_foldl_ge l (selStep init a))
      rw [selStep]
      split
      · exact le_refl _
      · exact le_of_not_lt (by assumption)
    · exact ih (selStep init a) r h

theorem selStep_foldl_keep (l : List (String × ℚ)) (b : String × ℚ)
    (h : ∀ r ∈ l, r.2 ≤ b.2) : l.foldl selStep b = b := by
  induction l with
  | nil => rfl
  | cons a l ih =>
    rw [List.foldl_cons]
    have ha : selStep b a = b := by
      rw [selStep, if_neg (not_lt.mpr (h a (List.mem_cons_self a l)))]
    rw [ha]
    exact ih (fun r hr => h r (List.mem_cons_of_mem a hr))

theorem selStep_foldl_lt (l : List (String × ℚ)) (init : String × ℚ) (c : ℚ)
    (h0 : init.2 < c) (h : ∀ r ∈ l, r.2 < c) : (l.foldl selStep init).2 < c := by
  induction l generalizing init with
  | nil => exact h0
  | cons a l ih =>
    rw [List.foldl_cons]
    refine ih (selStep init a) ?_ (fun r hr => h r (List.mem_cons_of_mem a hr))
    rw [selStep]
    split
    · exact h a (List.mem_cons_self a l)
    · exact h0

/-- If every result before `r` is strictly below `r`'s confidence, the
initial best is too, and nothing after `r` exceeds it, the fold picks `r`:
a later tie never overwrites. -/
theorem selStep_first_win (l1 l2 : List (String × ℚ)) (r init : String × ℚ)
    (h0 : init.2 < r.2) (h1 : ∀ a ∈ l1, a.2 < r.2) (h2 : ∀ a ∈ l2, a.2 ≤ r.2) :
    (l1 ++ r :: l2).foldl selStep init = r := by
  rw [List.foldl_append, List.foldl_cons]
  have hlt : (l1.foldl selStep init).2 < r.2 := selStep_foldl_lt l1 init r.2 h0 h1
  rw [selStep, if_pos hlt]
  exact selStep_foldl_keep l2 r h2

/-- The fold either keeps its initial value because no result strictly
beats it, or returns the first result of maximal confidence. -/
theorem selStep_foldl_cases (d : String × ℚ) (l : List (String × ℚ)) :
    ∀ init : String × ℚ,
    (l.foldl selStep init = init ∧ ∀ r ∈ l, r.2 ≤ init.2) ∨
    (∃ i, i < l.length ∧ l.foldl selStep init = l.getD i d ∧
      init.2 < (l.getD i d).2 ∧ (∀ r ∈ l, r.2 ≤ (l.getD i d).2) ∧
      ∀ r ∈ l.take i, r.2 < (l.getD i d).2) := by
  induction l with
  | nil =>
    intro init
    exact Or.inl ⟨rfl, fun r hr => absurd hr (List.not_mem_nil r)⟩
  | cons a l ih =>
    intro init
    rw [List.foldl_cons]
    by_cases hc : init.2 < a.2
    · have ha : selStep init a = a := by rw [selStep, if_pos hc]
      rw [ha]
      rcases ih a with ⟨hfold, hle⟩ | ⟨i, hi, hfold, hgt, hmax, hfirst⟩
      · refine Or.inr ⟨0, by simp, by simpa using hfold, by simpa using hc, ?_, ?_⟩
        · intro r hr
          rcases List.mem_cons.mp hr with h | h
          · subst h; simp
          · simpa using hle r h
        · intro r hr
          simp at hr
      · refine Or.inr ⟨i + 1, by simpa using hi, by simpa using hfold, ?_, ?_, ?_⟩
        · simp only [List.getD_cons_succ]
          exact lt_trans hc hgt
        · intro r hr
          simp only [List.getD_cons_succ]
          rcases List.mem_cons.mp hr with h | h
          · subst h; exact le_of_lt hgt
          · exact hmax r h
        · intro r hr
          simp only [List.getD_cons_succ]
          rw [List.take_succ_cons] at hr
          rcases List.mem_cons.mp hr with h | h
          · subst h; exact hgt
          · exact hfirst r h
    · have ha : selStep init a = init := by rw [selStep, if_neg hc]
      rw [ha]
      rcases ih init with ⟨hfold, hle⟩ | ⟨i, hi, hfold, hgt, hmax, hfirst⟩
      · refine Or.inl ⟨hfold, ?_⟩
        intro r hr
        rcases List.mem_cons.mp hr with h | h
        · subst h; exact le_of_not_lt hc
        · exact hle r h
      · refine Or.inr ⟨i + 1, by simpa using hi, by simpa using hfold, ?_, ?_, ?_⟩
        · simp only [List.getD_cons_succ]
          exact hgt
        · intro r hr
          simp only [List.getD_cons_succ]
          rcases List.mem_cons.mp hr with h | h
          · subst h; exact le_trans (le_of_not_lt hc) (le_of_lt hgt)
          · exact hmax r h
        · intro r hr
          simp only [List.getD_cons_succ]
          rw [List.take_succ_cons] at hr
          rcases List.mem_cons.mp hr with h | h
          · subst h; exact lt_of_le_of_lt (le_of_not_lt hc) hgt
          · exact hfirst r h

/-- On a well-formed pose, `predict` is the capped selection fold over the
rule results in bank order. -/
theorem predict_eq_fold (lm : List Landmark) (h : 21 ≤ lm.length) :
    predict lm =
      (((ruleResults lm).foldl selStep ("unknown", 0.1)).1,
       min ((ruleResults lm).foldl selStep ("unknown", 0.1)).2 0.95) := by
  have hcond : ¬ ((lm.isEmpty || decide (lm.length < 21)) = true) := by
    simp only [Bool.or_eq_true, decide_eq_true_eq, List.isEmpty_iff, not_or]
    constructor
    · intro hemp
      rw [hemp] at h
      simp at h
    · omega
  rw [predict, if_neg hcond, ruleResults, List.foldl_map]

/-- The first rule of the bank is always among the results. -/
theorem hello_mem_ruleResults (lm : List Landmark) :
    ("hello", check_hello lm) ∈ ruleResults lm := by
  rw [ruleResults_eq]
  exact List.mem_cons_self _ _

/-- An in-bounds `getD` element of a list is a member. -/
theorem getD_mem_of_lt {α : Type} (l : List α) (d : α) (i : ℕ) (hi : i < l.length) :
    l.getD i d ∈ l := by
  rw [List.getD_eq_getElem l d hi]
  exact List.getElem_mem hi

/-- C1: on any pose with at least 21 landmarks, `predict` returns exactly
the first rule result, in the fixed bank order `hello, thank_you, yes, no,
help, stop, please, water, more, finished`, whose confidence is maximal
among all ten; every earlier rule has strictly smaller confidence, so a
later rule that ties an earlier one never wins. -/
theorem predict_returns_first_max (lm : List Landmark) (h : 21 ≤ lm.length) :
    (ruleResults lm).map Prod.fst =
      ["hello", "thank_you", "yes", "no", "help", "stop", "please", "water",
       "more", "finished"] ∧
    ∃ i, i < (ruleResults lm).length ∧
      predict lm = (ruleResults lm).getD i ("unknown", 0.1) ∧
      (∀ r ∈ ruleResults lm, r.2 ≤ ((ruleResults lm).getD i ("unknown", 0.1)).2) ∧
      ∀ r ∈ (ruleResults lm).take i,
        r.2 < ((ruleResults lm).getD i ("unknown", 0.1)).2 := by
  refine ⟨rfl, ?_⟩
  rcases selStep_foldl_cases ("unknown", 0.1) (ruleResults lm) ("unknown", 0.1)
    with ⟨hfold, hle⟩ | ⟨i, hi, hfold, hgt, hmax, hfirst⟩
  · exfalso
    have h02 : (0.2 : ℚ) ≤ ("hello", check_hello lm).2 :=
      (rule_conf_bounds lm _ (hello_mem_ruleResults lm)).1
    have hle1 := hle _ (hello_mem_ruleResults lm)
    simp only at hle1
    norm_num at hle1 h02
    linarith
  · refine ⟨i, hi, ?_, hmax, hfirst⟩
    have hb := rule_conf_bounds lm _
      (getD_mem_of_lt (ruleResults lm) ("unknown", 0.1) i hi)
    rw [predict_eq_fold lm h, hfold,
      min_eq_left (le_trans hb.2 (by norm_num))]

/-- C3: `predict` yields the fallback `("unknown", 0.1)` exactly on the
malformed poses, those with fewer than 21 landmarks (the empty pose
included); and it is a total function, so malformed input yields this
value rather than an exception. -/
theorem predict_unknown_iff (lm : List Landmark) :
    predict lm = ("unknown", 0.1) ↔ lm.length < 21 := by
  constructor
  · intro heq
    by_contra hlen
    push_neg at hlen
    have h02 : (0.2 : ℚ) ≤ ("hello", check_hello lm).2 :=
      (rule_conf_bounds lm _ (hello_mem_ruleResults lm)).1
    have hge := selStep_foldl_mem_le (ruleResults lm) ("unknown", 0.1) _
      (hello_mem_ruleResults lm)
    rw [predict_eq_fold lm hlen] at heq
    have h2 := congrArg Prod.snd heq
    simp only at h2
    have hlb : (0.2 : ℚ) ≤
        min ((ruleResults lm).foldl selStep ("unknown", 0.1)).2 0.95 :=
      le_min (le_trans h02 hge) (by norm_num)
    rw [h2] at hlb
    norm_num at hlb
  · intro hlt
    rw [predict, if_pos]
    simp only [Bool.or_eq_true, decide_eq_true_eq]
    exact Or.inr hlt

/-- C4: for every pose, well formed or not, the confidence `predict`
returns lies in `[0.1, 0.95]`: the `0.1` floor and the final `min` cap. -/
theorem predict_conf_range (lm : List Landmark) :
    0.1 ≤ (predict lm).2 ∧ (predict lm).2 ≤ 0.95 := by
  by_cases hlen : 21 ≤ lm.length
  · rw [predict_eq_fold lm hlen]
    refine ⟨le_min ?_ (by norm_num), min_le_right _ _⟩
    exact selStep_foldl_ge (ruleResults lm) ("unknown", 0.1)
  · rw [predict, if_pos]
    · norm_num
    · simp only [Bool.or_eq_true, decide_eq_true_eq]
      exact Or.inr (by omega)

/-!  Upper bounds on the individual rules, used to reason about which rule
wins the selection fold. -/

theorem check_hello_le (lm : List Landmark) : check_hello lm ≤ 0.8 := by
  rw [check_hello_eq]; exact ite_le (by norm_num) (by norm_num)

theorem check_thank_you_le (lm : List Landmark) : check_thank_you lm ≤ 0.7 := by
  rw [check_thank_you_eq]; exact ite_le (by norm_num) (by norm_num)

theorem check_yes_le (lm : List Landmark) : check_yes lm ≤ 0.8 := by
  rw [check_yes_eq]; exact ite_le (by norm_num) (by norm_num)

theorem check_no_le (lm : List Landmark) : check_no lm ≤ 0.7 := by
  rw [check_no_eq]; exact ite_le (by norm_num) (by norm_num)

theorem check_help_le (lm : List Landmark) : check_help lm ≤ 0.6 := by
  rw [check_help_eq]; exact ite_le (by norm_num) (by norm_num)

theorem check_stop_le (lm : List Landmark) : check_stop lm ≤ 0.7 := by
  rw [check_stop_eq]; exact ite_le (by norm_num) (by norm_num)

theorem check_please_le (lm : List Landmark) : check_please lm ≤ 0.6 := by
  rw [check_please_eq]; exact ite_le (by norm_num) (by norm_num)

theorem check_water_le (lm : List Landmark) : check_water lm ≤ 0.6 := by
  rw [check_water_eq]; exact ite_le (by norm_num) (by norm_num)

theorem check_more_le (lm : List Landmark) : check_more lm ≤ 0.7 := by
  rw [check_more_eq]; exact ite_le (by norm_num) (by norm_num)

theorem check_finished_le (lm : List Landmark) : check_finished lm ≤ 0.5 := by
  rw [check_finished_eq]; exact ite_le (by norm_num) (by norm_num)

/-- C2: on any pose with at least 21 landmarks, each of the ten rules
returns exactly its table confidence when its geometric test holds and
`0.2` otherwise, with finger extension read off the coordinates: a
non-thumb finger is extended iff its tip `y` is strictly below its joint
`y`, the thumb iff its tip `x` is strictly above its joint `x`; `hello`
tests at least 4 of 5 fingers extended, `more` tests all five fingertips
within (squared) Euclidean distance `0.1 ^ 2` of their shared centroid in
the `x, y` plane. -/
theorem rules_match_table (lm : List Landmark) (_h : 21 ≤ lm.length) :
    check_hello lm = (if 4 ≤ extCountSpec lm then 0.8 else 0.2) ∧
    check_thank_you lm = (if wristY lm < 0.3 then 0.7 else 0.2) ∧
    check_yes lm =
      (if thumbExt lm ∧ ¬(indexExt lm ∨ middleExt lm ∨ ringExt lm ∨ pinkyExt lm)
       then 0.8 else 0.2) ∧
    check_no lm =
      (if ¬ thumbExt lm ∧ indexExt lm ∧ ¬(middleExt lm ∨ ringExt lm ∨ pinkyExt lm)
       then 0.7 else 0.2) ∧
    check_help lm = (if 3 ≤ extCountSpec lm ∧ wristZ lm < 0 then 0.6 else 0.2) ∧
    check_stop lm = (if 3 ≤ nonThumbCountSpec lm then 0.7 else 0.2) ∧
    check_please lm =
      (if 3 ≤ extCountSpec lm ∧ 0.3 < wristY lm ∧ wristY lm < 0.7
       then 0.6 else 0.2) ∧
    check_water lm = (if extCountSpec lm ≤ 2 ∧ wristY lm < 0.4 then 0.6 else 0.2) ∧
    check_more lm = (if moreCond lm then 0.7 else 0.2) ∧
    check_finished lm = (if 3 ≤ extCountSpec lm then 0.5 else 0.2) :=
  ⟨check_hello_eq lm, check_thank_you_eq lm, check_yes_eq lm, check_no_eq lm,
   check_help_eq lm, check_stop_eq lm, check_please_eq lm, check_water_eq lm,
   check_more_eq lm, check_finished_eq lm⟩

/-- C6: a pose with at least 21 landmarks whose thumb tip `x` exceeds the
thumb joint `x` while every other fingertip `y` is at least its joint `y`
classifies as `("yes", 0.8)`, independent of all other coordinates. -/
theorem predict_yes_scenario (lm : List Landmark) (h : 21 ≤ lm.length)
    (hthumb : (getLm lm 3).x < (getLm lm 4).x)
    (hidx : (getLm lm 6).y ≤ (getLm lm 8).y)
    (hmid : (getLm lm 10).y ≤ (getLm lm 12).y)
    (hring : (getLm lm 14).y ≤ (getLm lm 16).y)
    (hpink : (getLm lm 18).y ≤ (getLm lm 20).y) :
    predict lm = ("yes", 0.8) := by
  have hni : ¬ indexExt lm := not_lt.mpr hidx
  have hnm : ¬ middleExt lm := not_lt.mpr hmid
  have hnr : ¬ ringExt lm := not_lt.mpr hring
  have hnp : ¬ pinkyExt lm := not_lt.mpr hpink
  have hcount : extCountSpec lm = 1 := by
    rw [extCountSpec, if_pos hthumb, if_neg hni, if_neg hnm, if_neg hnr,
      if_neg hnp]
  have hhello : check_hello lm = 0.2 := by
    rw [check_hello_eq, hcount, if_neg (by omega)]
  have hyes : check_yes lm = 0.8 := by
    rw [check_yes_eq, if_pos ⟨hthumb, by tauto⟩]
  rw [predict_eq_fold lm h]
  have hsplit : ruleResults lm =
      [("hello", check_hello lm), ("thank_you", check_thank_you lm)] ++
        ("yes", check_yes lm) ::
          [("no", check_no lm), ("help", check_help lm),
           ("stop", check_stop lm), ("please", check_please lm),
           ("water", check_water lm), ("more", check_more lm),
           ("finished", check_finished lm)] := rfl
  rw [hsplit, selStep_first_win]
  · simp only [hyes]
    rw [min_eq_left (by norm_num)]
  · simp only [hyes]
    norm_num
  · intro a ha
    simp only [List.mem_cons, List.not_mem_nil, or_false] at ha
    rcases ha with ha | ha <;> rw [ha] <;> simp only [hyes, hhello]
    · norm_num
    · exact lt_of_le_of_lt (check_thank_you_le lm) (by norm_num)
  · intro a ha
    simp only [List.mem_cons, List.not_mem_nil, or_false] at ha
    rcases ha with ha | ha | ha | ha | ha | ha | ha <;> rw [ha] <;>
      simp only [hyes]
    · exact le_trans (check_no_le lm) (by norm_num)
    · exact le_trans (check_help_le lm) (by norm_num)
    · exact le_trans (check_stop_le lm) (by norm_num)
    · exact le_trans (check_please_le lm) (by norm_num)
    · exact le_trans (check_water_le lm) (by norm_num)
    · exact le_trans (check_more_le lm) (by norm_num)
    · exact le_trans (check_finished_le lm) (by norm_num)

/-- C9: on a pose with at least 21 landmarks where none of the ten
geometric tests holds, every rule returns its failure confidence `0.2`,
and `predict` returns `("hello", 0.2)` — the first rule in bank order —
rather than any neutral or unknown answer. -/
theorem predict_all_rules_fail (lm : List Landmark) (h : 21 ≤ lm.length)
    (hhello : ¬ 4 ≤ extCountSpec lm)
    (hthank : ¬ wristY lm < 0.3)
    (hyes : ¬(thumbExt lm ∧ ¬(indexExt lm ∨ middleExt lm ∨ ringExt lm ∨ pinkyExt lm)))
    (hno : ¬(¬ thumbExt lm ∧ indexExt lm ∧ ¬(middleExt lm ∨ ringExt lm ∨ pinkyExt lm)))
    (hhelp : ¬(3 ≤ extCountSpec lm ∧ wristZ lm < 0))
    (hstop : ¬ 3 ≤ nonThumbCountSpec lm)
    (hplease : ¬(3 ≤ extCountSpec lm ∧ 0.3 < wristY lm ∧ wristY lm < 0.7))
    (hwater : ¬(extCountSpec lm ≤ 2 ∧ wristY lm < 0.4))
    (hmore : ¬ moreCond lm)
    (hfin : ¬ 3 ≤ extCountSpec lm) :
    (∀ r ∈ ruleResults lm, r.2 = 0.2) ∧ predict lm = ("hello", 0.2) := by
  have e1 : check_hello lm = 0.2 := by rw [check_hello_eq, if_neg hhello]
  have e2 : check_thank_you lm = 0.2 := by rw [check_thank_you_eq, if_neg hthank]
  have e3 : check_yes lm = 0.2 := by rw [check_yes_eq, if_neg hyes]
  have e4 : check_no lm = 0.2 := by rw [check_no_eq, if_neg hno]
  have e5 : check_help lm = 0.2 := by rw [check_help_eq, if_neg hhelp]
  have e6 : check_stop lm = 0.2 := by rw [check_stop_eq, if_neg hstop]
  have e7 : check_please lm = 0.2 := by rw [check_please_eq, if_neg hplease]
  have e8 : check_water lm = 0.2 := by rw [check_water_eq, if_neg hwater]
  have e9 : check_more lm = 0.2 := by rw [check_more_eq, if_neg hmore]
  have e10 : check_finished lm = 0.2 := by rw [check_finished_eq, if_neg hfin]
  constructor
  · intro r hr
    rw [ruleResults_eq] at hr
    simp only [List.mem_cons, List.not_mem_nil, or_false] at hr
    rcases hr with hh | hh | hh | hh | hh | hh | hh | hh | hh | hh <;>
      rw [hh] <;> simp [e1, e2, e3, e4, e5, e6, e7, e8, e9, e10]
  · rw [predict_eq_fold lm h, ruleResults_eq,
      e1, e2, e3, e4, e5, e6, e7, e8, e9, e10]
    norm_num [List.foldl_cons, List.foldl_nil, selStep, min_def]

/-!  Arithmetic facts for the `more` scenario: fingertips inside a closed
ball of radius `0.02` around `(0.5, 0.5)` are all strictly within distance
`0.1` of their centroid. -/

/-- A point in the closed `0.02`-ball around `(0.5, 0.5)` has both
coordinates inside `[0.48, 0.52]`. -/
theorem coord_bounds (u v : ℚ) (h : (u - 0.5) ^ 2 + (v - 0.5) ^ 2 ≤ (0.02 : ℚ) ^ 2) :
    (0.48 ≤ u ∧ u ≤ 0.52) ∧ (0.48 ≤ v ∧ v ≤ 0.52) := by
  refine ⟨⟨?_, ?_⟩, ?_, ?_⟩
  · nlinarith [sq_nonneg (u - 0.48), sq_nonneg (v - 0.5)]
  · nlinarith [sq_nonneg (u - 0.52), sq_nonneg (v - 0.5)]
  · nlinarith [sq_nonneg (v - 0.48), sq_nonneg (u - 0.5)]
  · nlinarith [sq_nonneg (v - 0.52), sq_nonneg (u - 0.5)]

/-- Two displacements of magnitude at most `0.04` have squared norm
strictly below `0.1 ^ 2`. -/
theorem sq_sum_small (u v : ℚ) (hu1 : -(0.04 : ℚ) ≤ u) (hu2 : u ≤ 0.04)
    (hv1 : -(0.04 : ℚ) ≤ v) (hv2 : v ≤ 0.04) : u ^ 2 + v ^ 2 < (0.1 : ℚ) ^ 2 := by
  nlinarith [mul_nonneg (by linarith : (0 : ℚ) ≤ 0.04 - u)
      (by linarith : (0 : ℚ) ≤ 0.04 + u),
    mul_nonneg (by linarith : (0 : ℚ) ≤ 0.04 - v)
      (by linarith : (0 : ℚ) ≤ 0.04 + v)]

set_option maxHeartbeats 1600000 in
/-- If all five fingertips lie in the closed `0.02`-ball around
`(0.5, 0.5)`, the `more` test holds. -/
theorem moreCond_of_near_center (lm : List Landmark)
    (hclose : ∀ t ∈ fingertipsOf lm,
      (t.x - 0.5) ^ 2 + (t.y - 0.5) ^ 2 ≤ (0.02 : ℚ) ^ 2) :
    moreCond lm := by
  have h4 := coord_bounds _ _ (hclose (getLm lm 4) (by simp [fingertipsOf]))
  have h8 := coord_bounds _ _ (hclose (getLm lm 8) (by simp [fingertipsOf]))
  have h12 := coord_bounds _ _ (hclose (getLm lm 12) (by simp [fingertipsOf]))
  have h16 := coord_bounds _ _ (hclose (getLm lm 16) (by simp [fingertipsOf]))
  have h20 := coord_bounds _ _ (hclose (getLm lm 20) (by simp [fingertipsOf]))
  have hcx : centX lm =
      ((getLm lm 4).x + (getLm lm 8).x + (getLm lm 12).x + (getLm lm 16).x +
        (getLm lm 20).x) / 5 := by
    simp [centX, fingertipsOf]
    ring
  have hcy : centY lm =
      ((getLm lm 4).y + (getLm lm 8).y + (getLm lm 12).y + (getLm lm 16).y +
        (getLm lm 20).y) / 5 := by
    simp [centY, fingertipsOf]
    ring
  have hcxb : 0.48 ≤ centX lm ∧ centX lm ≤ 0.52 := by
    rw [hcx]
    constructor <;>
      [linarith [h4.1.1, h8.1.1, h12.1.1, h16.1.1, h20.1.1];
       linarith [h4.1.2, h8.1.2, h12.1.2, h16.1.2, h20.1.2]]
  have hcyb : 0.48 ≤ centY lm ∧ centY lm ≤ 0.52 := by
    rw [hcy]
    constructor <;>
      [linarith [h4.2.1, h8.2.1, h12.2.1, h16.2.1, h20.2.1];
       linarith [h4.2.2, h8.2.2, h12.2.2, h16.2.2, h20.2.2]]
  intro t ht
  simp only [fingertipsOf, List.mem_cons, List.not_mem_nil, or_false] at ht
  rcases ht with ht | ht | ht | ht | ht <;> rw [ht] <;>
    refine sq_sum_small _ _ ?_ ?_ ?_ ?_
  · linarith [h4.1.1, hcxb.2]
  · linarith [h4.1.2, hcxb.1]
  · linarith [h4.2.1, hcyb.2]
  · linarith [h4.2.2, hcyb.1]
  · linarith [h8.1.1, hcxb.2]
  · linarith [h8.1.2, hcxb.1]
  · linarith [h8.2.1, hcyb.2]
  · linarith [h8.2.2, hcyb.1]
  · linarith [h12.1.1, hcxb.2]
  · linarith [h12.1.2, hcxb.1]
  · linarith [h12.2.1, hcyb.2]
  · linarith [h12.2.2, hcyb.1]
  · linarith [h16.1.1, hcxb.2]
  · linarith [h16.1.2, hcxb.1]
  · linarith [h16.2.1, hcyb.2]
  · linarith [h16.2.2, hcyb.1]
  · linarith [h20.1.1, hcxb.2]
  · linarith [h20.1.2, hcxb.1]
  · linarith [h20.2.1, hcyb.2]
  · linarith [h20.2.2, hcyb.1]

/-- A pose whose five fingertips all sit exactly at `(0.5, 0.5)` (well
inside the `0.02`-ball) but whose joints lie so that every finger counts
as extended: landmark 3 is at `x = 0.4` and the non-thumb joints at
`y = 1`. -/
def cpose5 : List Landmark :=
  [⟨0.5, 0.5, 0⟩, ⟨0.5, 0.5, 0⟩, ⟨0.5, 0.5, 0⟩, ⟨0.4, 0.5, 0⟩,
   ⟨0.5, 0.5, 0⟩, ⟨0.5, 0.5, 0⟩, ⟨0.5, 1, 0⟩, ⟨0.5, 0.5, 0⟩,
   ⟨0.5, 0.5, 0⟩, ⟨0.5, 0.5, 0⟩, ⟨0.5, 1, 0⟩, ⟨0.5, 0.5, 0⟩,
   ⟨0.5, 0.5, 0⟩, ⟨0.5, 0.5, 0⟩, ⟨0.5, 1, 0⟩, ⟨0.5, 0.5, 0⟩,
   ⟨0.5, 0.5, 0⟩, ⟨0.5, 0.5, 0⟩, ⟨0.5, 1, 0⟩, ⟨0.5, 0.5, 0⟩,
   ⟨0.5, 0.5, 0⟩]

/-- C5 counterexample: `cpose5` has 21 landmarks and all five fingertips
within a `0.02`-unit radius of `(0.5, 0.5)`, yet `predict` returns
`("hello", 0.8)`, not `("more", 0.7)`: the claim's hypothesis does not
constrain the joints, so other rules can outscore `more`. -/
theorem more_scenario_counterexample :
    (21 ≤ cpose5.length ∧
      ∀ t ∈ fingertipsOf cpose5,
        (t.x - 0.5) ^ 2 + (t.y - 0.5) ^ 2 ≤ (0.02 : ℚ) ^ 2) ∧
    predict cpose5 ≠ ("more", 0.7) := by
  have hpred : predict cpose5 = ("hello", 0.8) := by
    norm_num [predict, gestures, check_hello, check_thank_you, check_yes,
      check_no, check_help, check_stop, check_please, check_water, check_more,
      check_finished, get_finger_extended, tip_ids, pip_ids, getLm, bsum,
      selStep, cpose5, List.enum, List.enumFrom, List.zip, List.zipWith,
      min_def]
  refine ⟨⟨by norm_num [cpose5], ?_⟩, ?_⟩
  · intro t ht
    simp only [fingertipsOf, getLm, cpose5, List.getD, List.getElem?_cons_zero,
      List.getElem?_cons_succ, Option.getD_some, List.mem_cons,
      List.not_mem_nil, or_false] at ht
    rcases ht with ht | ht | ht | ht | ht <;> rw [ht] <;> norm_num
  · rw [hpred]
    intro hcontra
    have := congrArg Prod.fst hcontra
    simp only at this
    exact absurd this (by decide)

/-- C5 amended: the fingertip-cluster scenario classifies as
`("more", 0.7)` once the pose additionally defeats every earlier rule
that could reach confidence `0.7` or more: fewer than 4 fingers extended
(hello), wrist `y` not below `0.3` (thank_you), not a thumb-only pose
(yes), not an index-only pose (no), and fewer than 3 non-thumb fingers
extended (stop). -/
theorem predict_more_scenario (lm : List Landmark) (h : 21 ≤ lm.length)
    (hclose : ∀ t ∈ fingertipsOf lm,
      (t.x - 0.5) ^ 2 + (t.y - 0.5) ^ 2 ≤ (0.02 : ℚ) ^ 2)
    (hhello : ¬ 4 ≤ extCountSpec lm)
    (hthank : ¬ wristY lm < 0.3)
    (hyes : ¬(thumbExt lm ∧ ¬(indexExt lm ∨ middleExt lm ∨ ringExt lm ∨ pinkyExt lm)))
    (hno : ¬(¬ thumbExt lm ∧ indexExt lm ∧ ¬(middleExt lm ∨ ringExt lm ∨ pinkyExt lm)))
    (hstop : ¬ 3 ≤ nonThumbCountSpec lm) :
    predict lm = ("more", 0.7) := by
  have hmore : check_more lm = 0.7 := by
    rw [check_more_eq, if_pos (moreCond_of_near_center lm hclose)]
  have e1 : check_hello lm = 0.2 := by rw [check_hello_eq, if_neg hhello]
  have e2 : check_thank_you lm = 0.2 := by rw [check_thank_you_eq, if_neg hthank]
  have e3 : check_yes lm = 0.2 := by rw [check_yes_eq, if_neg hyes]
  have e4 : check_no lm = 0.2 := by rw [check_no_eq, if_neg hno]
  have e6 : check_stop lm = 0.2 := by rw [check_stop_eq, if_neg hstop]
  rw [predict_eq_fold lm h]
  have hsplit : ruleResults lm =
      [("hello", check_hello lm), ("thank_you", check_thank_you lm),
       ("yes", check_yes lm), ("no", check_no lm), ("help", check_help lm),
       ("stop", check_stop lm), ("please", check_please lm),
       ("water", check_water lm)] ++
        ("more", check_more lm) :: [("finished", check_finished lm)] := rfl
  rw [hsplit, selStep_first_win]
  · simp only [hmore]
    rw [min_eq_left (by norm_num)]
  · simp only [hmore]
    norm_num
  · intro a ha
    simp only [List.mem_cons, List.not_mem_nil, or_false] at ha
    rcases ha with ha | ha | ha | ha | ha | ha | ha | ha <;> rw [ha] <;>
      simp only [hmore, e1, e2, e3, e4, e6]
    · norm_num
    · norm_num
    · norm_num
    · norm_num
    · exact lt_of_le_of_lt (check_help_le lm) (by norm_num)
    · norm_num
    · exact lt_of_le_of_lt (check_please_le lm) (by norm_num)
    · exact lt_of_le_of_lt (check_water_le lm) (by norm_num)
  · intro a ha
    simp only [List.mem_cons, List.not_mem_nil, or_false] at ha
    rw [ha]
    simp only [hmore]
    exact le_trans (check_finished_le lm) (by norm_num)

/-- Poses agreeing on their first 21 landmarks give the same landmark at
each index below 21. -/
theorem getLm_congr {lm lm2 : List Landmark} (h : lm.take 21 = lm2.take 21)
    (i : ℕ) (hi : i < 21) : getLm lm i = getLm lm2 i := by
  have h1 : (lm.take 21)[i]? = (lm2.take 21)[i]? := by rw [h]
  rw [List.getElem?_take, List.getElem?_take, if_pos hi, if_pos hi] at h1
  unfold getLm List.getD
  rw [List.get?_eq_getElem?, List.get?_eq_getElem?, h1]

/-- C10: `predict` accepts any pose with at least 21 landmarks and its
result depends only on the landmarks at indices 0 through 20: two poses
agreeing on their first 21 landmarks classify identically. -/
theorem predict_depends_on_first21 (lm lm2 : List Landmark)
    (h1 : 21 ≤ lm.length) (h2 : 21 ≤ lm2.length)
    (h : lm.take 21 = lm2.take 21) : predict lm = predict lm2 := by
  have hg : ∀ i, i < 21 → getLm lm i = getLm lm2 i :=
    fun i hi => getLm_congr h i hi
  have hext : get_finger_extended lm = get_finger_extended lm2 := by
    simp only [get_finger_extended_eq, thumbExt, indexExt, middleExt, ringExt,
      pinkyExt]
    rw [hg 3 (by norm_num), hg 4 (by norm_num), hg 6 (by norm_num),
      hg 8 (by norm_num), hg 10 (by norm_num), hg 12 (by norm_num),
      hg 14 (by norm_num), hg 16 (by norm_num), hg 18 (by norm_num),
      hg 20 (by norm_num)]
  have c1 : check_hello lm = check_hello lm2 := by
    simp only [check_hello]
    rw [hext]
  have c2 : check_thank_you lm = check_thank_you lm2 := by
    simp only [check_thank_you]
    rw [hg 0 (by norm_num)]
  have c3 : check_yes lm = check_yes lm2 := by
    simp only [check_yes]
    rw [hext]
  have c4 : check_no lm = check_no lm2 := by
    simp only [check_no]
    rw [hext]
  have c5 : check_help lm = check_help lm2 := by
    simp only [check_help]
    rw [hext, hg 0 (by norm_num)]
  have c6 : check_stop lm = check_stop lm2 := by
    simp only [check_stop]
    rw [hext]
  have c7 : check_please lm = check_please lm2 := by
    simp only [check_please]
    rw [hext, hg 0 (by norm_num)]
  have c8 : check_water lm = check_water lm2 := by
    simp only [check_water]
    rw [hext, hg 0 (by norm_num)]
  have c9 : check_more lm = check_more lm2 := by
    simp only [check_more, List.map_cons, List.map_nil, hg 4 (by norm_num),
      hg 8 (by norm_num), hg 12 (by norm_num), hg 16 (by norm_num),
      hg 20 (by norm_num)]
  have c10 : check_finished lm = check_finished lm2 := by
    simp only [check_finished]
    rw [hext]
  rw [predict_eq_fold lm h1, predict_eq_fold lm2 h2, ruleResults_eq,
    ruleResults_eq, c1, c2, c3, c4, c5, c6, c7, c8, c9, c10]

/-!  The phrase-to-animation lookup (`text_to_sign` endpoint). -/

/-- Whether the first list is a prefix of the second. -/
def pfxAt : List Char → List Char → Bool
  | [], _ => true
  | _ :: _, [] => false
  | a :: as, b :: bs => a == b && pfxAt as bs

/-- Python's substring containment test `needle in hay`. -/
def occursIn (needle hay : String) : Bool :=
  (List.range (hay.length + 1)).any (fun i => pfxAt needle.toList (hay.toList.drop i))

/-- Python's `text.lower().strip()`: lower-case every character and drop
the surrounding whitespace.  Implemented structurally on the character
list (ASCII-range lower-casing, as with `str.lower` on these inputs). -/
def normalize (s : String) : String :=
  ⟨(((s.data.map Char.toLower).dropWhile Char.isWhitespace).reverse.dropWhile
      Char.isWhitespace).reverse⟩

/-- The `SIGN_ANIMATIONS` dict, in Python insertion order (which both
`dict.get` and the partial-match loop respect). -/
def SIGN_ANIMATIONS : List (String × String) :=
  [("hello", "wave_hello.gif"),
   ("thank you", "thank_you.gif"),
   ("yes", "thumbs_up.gif"),
   ("no", "shake_no.gif"),
   ("help", "help_gesture.gif"),
   ("stop", "stop_hand.gif"),
   ("please", "please_gesture.gif"),
   ("water", "water_drink.gif"),
   ("more", "more_gesture.gif"),
   ("finished", "finished_gesture.gif"),
   ("good morning", "good_morning.gif"),
   ("how are you", "how_are_you.gif"),
   ("i am fine", "i_am_fine.gif"),
   ("nice to meet you", "nice_to_meet.gif")]

/-- The lookup logic of the `text_to_sign` endpoint: normalize (lower-case
and strip), try the exact dict lookup, else scan for the first partial
(substring either way) match, else fall back to the sentinel.  Python's
final `if not animation_key` test is modelled by `Option.getD`: it fires
exactly when the key is still `None`, since no catalog value is the empty
string. -/
def text_to_sign_core (text : String) : String × Bool :=
  let text_lower := normalize text
  let animation_key :=
    (SIGN_ANIMATIONS.find? (fun p => p.1 == text_lower)).map (fun p => p.2)
  let supported := animation_key.isSome
  let result :=
    if supported then (animation_key, supported)
    else
      match SIGN_ANIMATIONS.find?
          (fun p => occursIn p.1 text_lower || occursIn text_lower p.1) with
      | some p => (some p.2, true)
      | none => (animation_key, supported)
  (result.1.getD ("not_supported.gif"), result.2)

/-- Modelled from the spec: the selection policy of §4.2 as written —
exact catalog match wins first; otherwise the first catalog phrase, in
fixed order, that is a substring of the input or of which the input is a
substring wins; otherwise the sentinel with `supported = false`. -/
def lookupSpec (text : String) : String × Bool :=
  let t := normalize text
  match SIGN_ANIMATIONS.find? (fun p => p.1 == t) with
  | some p => (p.2, true)
  | none =>
    match SIGN_ANIMATIONS.find? (fun p => occursIn p.1 t || occursIn t p.1) with
    | some p => (p.2, true)
    | none => ("not_supported.gif", false)

/-- C7: the lookup normalizes by lower-casing and trimming, prefers an
exact catalog match, otherwise accepts the first substring match in the
fixed catalog definition order, and otherwise returns the sentinel
`"not_supported.gif"` with `supported = false`: the code's control flow
coincides with the spec's three-stage selection policy. -/
theorem lookup_refines_spec :
    SIGN_ANIMATIONS.map Prod.fst =
      ["hello", "thank you", "yes", "no", "help", "stop", "please", "water",
       "more", "finished", "good morning", "how are you", "i am fine",
       "nice to meet you"] ∧
    ∀ s : String, text_to_sign_core s = lookupSpec s := by
  refine ⟨rfl, ?_⟩
  intro s
  unfold text_to_sign_core lookupSpec
  cases h1 : SIGN_ANIMATIONS.find? (fun p => p.1 == normalize s) with
  | some p => simp [h1]
  | none =>
    cases h2 : SIGN_ANIMATIONS.find?
        (fun p => occursIn p.1 (normalize s) || occursIn (normalize s) p.1) with
    | some p => simp [h1, h2]
    | none => simp [h1, h2]

/-- C8: any input that normalizes to the empty string is matched by the
first catalog entry — the empty string is a substring of every phrase —
so the lookup returns `("wave_hello.gif", true)`, not the sentinel. -/
theorem lookup_empty_input (s : String) (h : normalize s = "") :
    text_to_sign_core s = ("wave_hello.gif", true) := by
  unfold text_to_sign_core
  rw [h]
  decide

/-!  Concrete poses used to witness the theorems above on real inputs. -/

/-- A fully centered pose: all 21 landmarks at `(0.5, 0.5, 0)`. -/
def wpose : List Landmark :=
  [⟨0.5, 0.5, 0⟩, ⟨0.5, 0.5, 0⟩, ⟨0.5, 0.5, 0⟩, ⟨0.5, 0.5, 0⟩,
   ⟨0.5, 0.5, 0⟩, ⟨0.5, 0.5, 0⟩, ⟨0.5, 0.5, 0⟩, ⟨0.5, 0.5, 0⟩,
   ⟨0.5, 0.5, 0⟩, ⟨0.5, 0.5, 0⟩, ⟨0.5, 0.5, 0⟩, ⟨0.5, 0.5, 0⟩,
   ⟨0.5, 0.5, 0⟩, ⟨0.5, 0.5, 0⟩, ⟨0.5, 0.5, 0⟩, ⟨0.5, 0.5, 0⟩,
   ⟨0.5, 0.5, 0⟩, ⟨0.5, 0.5, 0⟩, ⟨0.5, 0.5, 0⟩, ⟨0.5, 0.5, 0⟩,
   ⟨0.5, 0.5, 0⟩]

/-- Like `wpose` but with the thumb tip (landmark 4) moved right, so that
exactly the thumb counts as extended. -/
def wposeYes : List Landmark :=
  [⟨0.5, 0.5, 0⟩, ⟨0.5, 0.5, 0⟩, ⟨0.5, 0.5, 0⟩, ⟨0.5, 0.5, 0⟩,
   ⟨0.6, 0.5, 0⟩, ⟨0.5, 0.5, 0⟩, ⟨0.5, 0.5, 0⟩, ⟨0.5, 0.5, 0⟩,
   ⟨0.5, 0.5, 0⟩, ⟨0.5, 0.5, 0⟩, ⟨0.5, 0.5, 0⟩, ⟨0.5, 0.5, 0⟩,
   ⟨0.5, 0.5, 0⟩, ⟨0.5, 0.5, 0⟩, ⟨0.5, 0.5, 0⟩, ⟨0.5, 0.5, 0⟩,
   ⟨0.5, 0.5, 0⟩, ⟨0.5, 0.5, 0⟩, ⟨0.5, 0.5, 0⟩, ⟨0.5, 0.5, 0⟩,
   ⟨0.5, 0.5, 0⟩]

/-- Like `wpose` but with the index fingertip (landmark 8) far left, so no
finger is extended and the fingertips are not clustered. -/
def wposeFail : List Landmark :=
  [⟨0.5, 0.5, 0⟩, ⟨0.5, 0.5, 0⟩, ⟨0.5, 0.5, 0⟩, ⟨0.5, 0.5, 0⟩,
   ⟨0.5, 0.5, 0⟩, ⟨0.5, 0.5, 0⟩, ⟨0.5, 0.5, 0⟩, ⟨0.5, 0.5, 0⟩,
   ⟨0, 0.5, 0⟩, ⟨0.5, 0.5, 0⟩, ⟨0.5, 0.5, 0⟩, ⟨0.5, 0.5, 0⟩,
   ⟨0.5, 0.5, 0⟩, ⟨0.5, 0.5, 0⟩, ⟨0.5, 0.5, 0⟩, ⟨0.5, 0.5, 0⟩,
   ⟨0.5, 0.5, 0⟩, ⟨0.5, 0.5, 0⟩, ⟨0.5, 0.5, 0⟩, ⟨0.5, 0.5, 0⟩,
   ⟨0.5, 0.5, 0⟩]

/-- Witness for C1: the first-maximum description of `predict`, realized
on the concrete pose `wpose`. -/
theorem predict_returns_first_max_witness :
    21 ≤ wpose.length ∧
    ((ruleResults wpose).map Prod.fst =
        ["hello", "thank_you", "yes", "no", "help", "stop", "please", "water",
         "more", "finished"] ∧
      ∃ i, i < (ruleResults wpose).length ∧
        predict wpose = (ruleResults wpose).getD i ("unknown", 0.1) ∧
        (∀ r ∈ ruleResults wpose,
          r.2 ≤ ((ruleResults wpose).getD i ("unknown", 0.1)).2) ∧
        ∀ r ∈ (ruleResults wpose).take i,
          r.2 < ((ruleResults wpose).getD i ("unknown", 0.1)).2) :=
  ⟨by norm_num [wpose], predict_returns_first_max wpose (by norm_num [wpose])⟩

/-- Witness for C2: the rule/table correspondence, realized on `wpose`. -/
theorem rules_match_table_witness :
    21 ≤ wpose.length ∧
    (check_hello wpose = (if 4 ≤ extCountSpec wpose then 0.8 else 0.2) ∧
     check_thank_you wpose = (if wristY wpose < 0.3 then 0.7 else 0.2) ∧
     check_yes wpose =
       (if thumbExt wpose ∧
           ¬(indexExt wpose ∨ middleExt wpose ∨ ringExt wpose ∨ pinkyExt wpose)
        then 0.8 else 0.2) ∧
     check_no wpose =
       (if ¬ thumbExt wpose ∧ indexExt wpose ∧
           ¬(middleExt wpose ∨ ringExt wpose ∨ pinkyExt wpose)
        then 0.7 else 0.2) ∧
     check_help wpose =
       (if 3 ≤ extCountSpec wpose ∧ wristZ wpose < 0 then 0.6 else 0.2) ∧
     check_stop wpose = (if 3 ≤ nonThumbCountSpec wpose then 0.7 else 0.2) ∧
     check_please wpose =
       (if 3 ≤ extCountSpec wpose ∧ 0.3 < wristY wpose ∧ wristY wpose < 0.7
        then 0.6 else 0.2) ∧
     check_water wpose =
       (if extCountSpec wpose ≤ 2 ∧ wristY wpose < 0.4 then 0.6 else 0.2) ∧
     check_more wpose = (if moreCond wpose then 0.7 else 0.2) ∧
     check_finished wpose = (if 3 ≤ extCountSpec wpose then 0.5 else 0.2)) :=
  ⟨by norm_num [wpose], rules_match_table wpose (by norm_num [wpose])⟩

/-- Witness for the amended C5: on `wpose` every fingertip sits at
`(0.5, 0.5)`, no blocking rule fires, and `predict` returns
`("more", 0.7)`. -/
theorem predict_more_scenario_witness :
    (21 ≤ wpose.length ∧
     (∀ t ∈ fingertipsOf wpose,
        (t.x - 0.5) ^ 2 + (t.y - 0.5) ^ 2 ≤ (0.02 : ℚ) ^ 2) ∧
     ¬ 4 ≤ extCountSpec wpose ∧
     ¬ wristY wpose < 0.3 ∧
     ¬(thumbExt wpose ∧
        ¬(indexExt wpose ∨ middleExt wpose ∨ ringExt wpose ∨ pinkyExt wpose)) ∧
     ¬(¬ thumbExt wpose ∧ indexExt wpose ∧
        ¬(middleExt wpose ∨ ringExt wpose ∨ pinkyExt wpose)) ∧
     ¬ 3 ≤ nonThumbCountSpec wpose) ∧
    predict wpose = ("more", 0.7) := by
  have hclose : ∀ t ∈ fingertipsOf wpose,
      (t.x - 0.5) ^ 2 + (t.y - 0.5) ^ 2 ≤ (0.02 : ℚ) ^ 2 := by
    intro t ht
    simp only [fingertipsOf, getLm, wpose, List.getD_cons_zero,
      List.getD_cons_succ, List.mem_cons, List.not_mem_nil, or_false] at ht
    rcases ht with ht | ht | ht | ht | ht <;> rw [ht] <;> norm_num
  have hhello : ¬ 4 ≤ extCountSpec wpose := by
    norm_num [extCountSpec, thumbExt, indexExt, middleExt, ringExt, pinkyExt,
      getLm, wpose]
  have hthank : ¬ wristY wpose < 0.3 := by
    norm_num [wristY, getLm, wpose]
  have hyes : ¬(thumbExt wpose ∧
      ¬(indexExt wpose ∨ middleExt wpose ∨ ringExt wpose ∨ pinkyExt wpose)) := by
    norm_num [thumbExt, getLm, wpose]
  have hno : ¬(¬ thumbExt wpose ∧ indexExt wpose ∧
      ¬(middleExt wpose ∨ ringExt wpose ∨ pinkyExt wpose)) := by
    norm_num [indexExt, getLm, wpose]
  have hstop : ¬ 3 ≤ nonThumbCountSpec wpose := by
    norm_num [nonThumbCountSpec, indexExt, middleExt, ringExt, pinkyExt,
      getLm, wpose]
  exact ⟨⟨by norm_num [wpose], hclose, hhello, hthank, hyes, hno, hstop⟩,
    predict_more_scenario wpose (by norm_num [wpose]) hclose hhello hthank
      hyes hno hstop⟩

/-- Witness for C6: the thumbs-up pose `wposeYes` satisfies the scenario
hypotheses and classifies as `("yes", 0.8)`. -/
theorem predict_yes_scenario_witness :
    (21 ≤ wposeYes.length ∧
     (getLm wposeYes 3).x < (getLm wposeYes 4).x ∧
     (getLm wposeYes 6).y ≤ (getLm wposeYes 8).y ∧
     (getLm wposeYes 10).y ≤ (getLm wposeYes 12).y ∧
     (getLm wposeYes 14).y ≤ (getLm wposeYes 16).y ∧
     (getLm wposeYes 18).y ≤ (getLm wposeYes 20).y) ∧
    predict wposeYes = ("yes", 0.8) := by
  have ht : (getLm wposeYes 3).x < (getLm wposeYes 4).x := by
    norm_num [getLm, wposeYes]
  have hi : (getLm wposeYes 6).y ≤ (getLm wposeYes 8).y := by
    norm_num [getLm, wposeYes]
  have hm : (getLm wposeYes 10).y ≤ (getLm wposeYes 12).y := by
    norm_num [getLm, wposeYes]
  have hr : (getLm wposeYes 14).y ≤ (getLm wposeYes 16).y := by
    norm_num [getLm, wposeYes]
  have hp : (getLm wposeYes 18).y ≤ (getLm wposeYes 20).y := by
    norm_num [getLm, wposeYes]
  exact ⟨⟨by norm_num [wposeYes], ht, hi, hm, hr, hp⟩,
    predict_yes_scenario wposeYes (by norm_num [wposeYes]) ht hi hm hr hp⟩

/-- Witness for C9: on `wposeFail` every geometric test fails and
`predict` returns `("hello", 0.2)`. -/
theorem predict_all_rules_fail_witness :
    (21 ≤ wposeFail.length ∧ ¬ moreCond wposeFail ∧
     ¬ 4 ≤ extCountSpec wposeFail ∧ ¬ 3 ≤ extCountSpec wposeFail ∧
     ¬ 3 ≤ nonThumbCountSpec wposeFail ∧ ¬ wristY wposeFail < 0.3) ∧
    (∀ r ∈ ruleResults wposeFail, r.2 = 0.2) ∧
    predict wposeFail = ("hello", 0.2) := by
  have hhello : ¬ 4 ≤ extCountSpec wposeFail := by
    norm_num [extCountSpec, thumbExt, indexExt, middleExt, ringExt, pinkyExt,
      getLm, wposeFail]
  have hfin : ¬ 3 ≤ extCountSpec wposeFail := by
    norm_num [extCountSpec, thumbExt, indexExt, middleExt, ringExt, pinkyExt,
      getLm, wposeFail]
  have hstop : ¬ 3 ≤ nonThumbCountSpec wposeFail := by
    norm_num [nonThumbCountSpec, indexExt, middleExt, ringExt, pinkyExt,
      getLm, wposeFail]
  have hthank : ¬ wristY wposeFail < 0.3 := by
    norm_num [wristY, getLm, wposeFail]
  have hyes : ¬(thumbExt wposeFail ∧
      ¬(indexExt wposeFail ∨ middleExt wposeFail ∨ ringExt wposeFail ∨
        pinkyExt wposeFail)) := by
    norm_num [thumbExt, getLm, wposeFail]
  have hno : ¬(¬ thumbExt wposeFail ∧ indexExt wposeFail ∧
      ¬(middleExt wposeFail ∨ ringExt wposeFail ∨ pinkyExt wposeFail)) := by
    norm_num [indexExt, getLm, wposeFail]
  have hhelp : ¬(3 ≤ extCountSpec wposeFail ∧ wristZ wposeFail < 0) := by
    intro hc
    exact hfin hc.1
  have hplease : ¬(3 ≤ extCountSpec wposeFail ∧ 0.3 < wristY wposeFail ∧
      wristY wposeFail < 0.7) := by
    intro hc
    exact hfin hc.1
  have hwater : ¬(extCountSpec wposeFail ≤ 2 ∧ wristY wposeFail < 0.4) := by
    intro hc
    have := hc.2
    norm_num [wristY, getLm, wposeFail] at this
  have hmore : ¬ moreCond wposeFail := by
    intro hmc
    have := hmc (getLm wposeFail 8) (by simp [fingertipsOf])
    norm_num [centX, centY, fingertipsOf, getLm, wposeFail] at this
  exact ⟨⟨by norm_num [wposeFail], hmore, hhello, hfin, hstop, hthank⟩,
    predict_all_rules_fail wposeFail (by norm_num [wposeFail]) hhello hthank
      hyes hno hhelp hstop hplease hwater hmore hfin⟩

/-- Witness for C10: appending a 22nd landmark to `wpose` leaves the
first 21 landmarks, and hence the classification, unchanged. -/
theorem predict_depends_on_first21_witness :
    (21 ≤ wpose.length ∧ 21 ≤ (wpose ++ [(⟨9, 9, 9⟩ : Landmark)]).length ∧
      wpose.take 21 = (wpose ++ [(⟨9, 9, 9⟩ : Landmark)]).take 21) ∧
    predict wpose = predict (wpose ++ [(⟨9, 9, 9⟩ : Landmark)]) := by
  have htake : wpose.take 21 = (wpose ++ [(⟨9, 9, 9⟩ : Landmark)]).take 21 := by
    rw [List.take_append_of_le_length (by norm_num [wpose])]
  exact ⟨⟨by norm_num [wpose], by norm_num [wpose], htake⟩,
    predict_depends_on_first21 wpose (wpose ++ [(⟨9, 9, 9⟩ : Landmark)])
      (by norm_num [wpose]) (by norm_num [wpose]) htake⟩

/-- Witness for C8: the empty input normalizes to the empty string and is
mapped to the first catalog entry with `supported = true`. -/
theorem lookup_empty_input_witness :
    normalize "   " = "" ∧ text_to_sign_core "   " = ("wave_hello.gif", true) :=
  ⟨by decide, lookup_empty_input "   " (by decide)⟩

end SignBridge
